import Mathlib

/-!
Verification development for the SumoNetVis network geometry and marking
synthesis engine. The Python sources (`SumoNetVis/Net.py`, `SumoNetVis/_Utils.py`)
are shallowly embedded: Python strings become `List Char` (or `String` for plain
identifiers), numpy boolean masks become `List Bool`, rational arithmetic stands
in for floats where only exact control flow matters, external geometry-kernel
operations (shapely) are abstracted into a `Geo` record of uninterpreted
operations, and raising code returns `Except String`.
-/

namespace SumoNetVis

/-- Two-dimensional coordinate pair, modelling shapely coordinates over `ℚ`. -/
abbrev Point : Type := ℚ × ℚ

/-- Three-dimensional vertex used by the 3D mesh builder. -/
abbrev Point3 : Type := ℚ × ℚ × ℚ

/-- Fixed vehicle-class enumeration (`Allowance.vClass_list`, `_Utils.py` 207-210); each
class name is modelled as its character list. -/
def vClass_list : List (List Char) :=
  ["private", "emergency", "authority", "army", "vip", "pedestrian", "passenger", "hov",
   "taxi", "bus", "coach", "delivery", "truck", "trailer", "motorcycle", "moped", "bicycle",
   "evehicle", "tram", "rail_urban", "rail", "rail_electric", "rail_fast", "ship", "custom1",
   "custom2"].map String.toList

/-- Vehicle-class permission mask (`Allowance`, `_Utils.py` 203-304): one boolean per entry
of `vClass_list`. -/
structure Allowance where
  mask : List Bool
deriving DecidableEq

/-- Embeds `Allowance.__init__` (`_Utils.py` 212-235). The `disallow_string == ""` branch of
the source builds an all-`False` numpy array, which matches no class name under `np.isin`;
it is modelled by the empty token list, which likewise matches nothing. -/
def Allowance.ofStrings (allow_string disallow_string : List Char) : Allowance :=
  let allows : List (List Char) :=
    if allow_string = "all".toList ∨ allow_string = [] then vClass_list
    else if allow_string = "none".toList then []
    else allow_string.splitOn ' '
  let disallows : List (List Char) :=
    if disallow_string = "all".toList then vClass_list
    else if disallow_string = [] then []
    else disallow_string.splitOn ' '
  ⟨vClass_list.map (fun c => decide (c ∈ allows) && !decide (c ∈ disallows))⟩

/-- Embeds `Allowance.allows` (`_Utils.py` 237-251) as a total function: every call site in
the embedded code passes a fixed valid class name or sentinel, so the `IndexError` branch
for unknown classes is never reached and is omitted here. The final branch mirrors
`self.mask[np.where(self.vClass_list == vClass)[0]].all()`. -/
def Allowance.allows (a : Allowance) (v : List Char) : Bool :=
  if v = "all".toList then a.mask.all id
  else if v = "none".toList then a.mask.all (fun b => !b)
  else ((vClass_list.zip a.mask).filter (fun p => decide (p.1 = v))).all (fun p => p.2)

/-- Embeds `Allowance.get_allow_string` (`_Utils.py` 253-260);
`self.vClass_list[self.mask]` (numpy boolean indexing) is the positional filter. -/
def Allowance.get_allow_string (a : Allowance) : List Char :=
  if a.mask.all id then "all".toList
  else if !a.mask.any id then "none".toList
  else [' '].intercalate (((vClass_list.zip a.mask).filter (fun p => p.2)).map (fun p => p.1))

/-- Embeds `Allowance.get_disallow_string` (`_Utils.py` 262-269). -/
def Allowance.get_disallow_string (a : Allowance) : List Char :=
  if a.mask.all id then "none".toList
  else if !a.mask.any id then "all".toList
  else [' '].intercalate (((vClass_list.zip a.mask).filter (fun p => !p.2)).map (fun p => p.1))

/-- Embeds `Allowance.is_superset_of` (`_Utils.py` 271-272): `self.mask[other.mask].all()`. -/
def Allowance.is_superset_of (a other : Allowance) : Bool :=
  (((other.mask.zip a.mask).filter (fun p => p.1)).map (fun p => p.2)).all id

/-- Embeds `Allowance.__add__` (`_Utils.py` 296-301): pointwise logical or of the masks. -/
def Allowance.add (a other : Allowance) : Allowance :=
  ⟨a.mask.zipWith (fun x y => x || y) other.mask⟩

/-- Embeds `Allowance.__eq__` against a string (`_Utils.py` 288-294): the string is promoted
via `Allowance(other)` (allow string, empty disallow string), then the masks are compared. -/
def Allowance.eqString (a : Allowance) (s : List Char) : Bool :=
  decide (a.mask = (Allowance.ofStrings s []).mask)

/-- Right-of-way record (`_Request`, `Net.py` 631-649); the parent-junction back-reference
is dropped, `cont` keeps the raw attribute string (defaulting to `"0"`). -/
structure Request where
  index : Int
  response : List Char
  foes : List Char
  cont : String
deriving DecidableEq

/-- A `_Junction` after construction and linking (`Net.py` 652-672), restricted to plain
data: the polygon is represented by its parsed coordinate ring, the lane references by
their id lists. -/
structure Junction where
  id : String
  type : String
  incLane_ids : List String
  intLane_ids : List String
  requests : List Request
  shape : Option (List Point)
deriving DecidableEq

/-- Raw junction attributes after the (excluded) XML/number-parsing glue: `incLanes` and
`intLanes` are already split on blanks, `shape` is the parsed coordinate-pair list when
the attribute is present. -/
structure JunctionAttrib where
  id : String
  type : String
  incLanes : List String
  intLanes : List String
  shape : Option (List Point)
deriving DecidableEq

/-- Embeds `_Junction.__init__` (`Net.py` 652-672): the shape is only set when more than two
coordinate pairs were parsed; otherwise it silently stays `None`. Construction never
raises. -/
def junctionInit (attrib : JunctionAttrib) : Junction :=
  { id := attrib.id
    type := attrib.type
    incLane_ids := attrib.incLanes
    intLane_ids := attrib.intLanes
    requests := []
    shape :=
      match attrib.shape with
      | none => none
      | some coords => if coords.length > 2 then some coords else none }

/-- Default lane width (`DEFAULT_LANE_WIDTH = 3.2`, `Net.py` 18). -/
def DEFAULT_LANE_WIDTH : ℚ := 16 / 5

/-- Per-lane data that does not involve geometry or linking (fields set by
`_Lane.__init__`, `Net.py` 241-267). `endOffset` and `acceleration` keep the raw
attribute strings, with `"0"` and `"False"` standing for the absent-attribute defaults. -/
structure LaneRec where
  id : String
  index : Int
  speed : ℚ
  allows : Allowance
  width : ℚ
  endOffset : String
  acceleration : String
  stop_offsets : List (ℚ × Allowance)
deriving DecidableEq

/-- An `_Edge` after linking (`Net.py` 70-137): `lanes` holds the child lane records in
append order, `to_junction` the resolved destination junction (or `None`). -/
structure Edge where
  id : String
  function : String
  lanes : List LaneRec
  stop_offsets : List (ℚ × Allowance)
  to_junction : Option Junction
deriving DecidableEq

/-- Embeds `_Edge.lane_count` (`Net.py` 111-117). -/
def Edge.lane_count (e : Edge) : Nat := e.lanes.length

/-- Embeds `_Edge.get_lane` (`Net.py` 99-109): first lane with the given index, else
`IndexError`. -/
def Edge.get_lane (e : Edge) (index : Int) : Except String LaneRec :=
  match e.lanes.find? (fun l => decide (l.index = index)) with
  | some lane => Except.ok lane
  | none => Except.error "IndexError: Edge contains no Lane with given index."

/-- A `_Lane` after linking, over an abstract geometry type `α` for its centerline
(`alignment`). The back-reference `parentEdge` and the attached `requests` are populated
by `Net._link_objects`; the buffered lane polygon is derived geometry-kernel work not
used by any embedded operation. -/
structure Lane (α : Type) where
  attr : LaneRec
  alignment : α
  parentEdge : Option Edge
  requests : List Request

/-- Raw lane attributes after the (excluded) XML/number-parsing glue: optional attributes
are `none` when absent, `shape` is the parsed coordinate-pair list. -/
structure LaneAttrib where
  id : String
  index : Int
  speed : ℚ
  allow : Option (List Char)
  disallow : Option (List Char)
  width : Option ℚ
  endOffset : Option String
  acceleration : Option String
  shape : List Point
deriving DecidableEq

/-- Embeds `_Lane.__init__` (`Net.py` 241-267). `LineString(coords)` — the geometry
kernel's line-string constructor — raises a `MalformedGeometry`-class error when fewer
than two coordinate pairs are supplied, so construction fails on such a shape attribute;
the alignment is represented by its coordinate list. -/
def laneInit (attrib : LaneAttrib) : Except String (Lane (List Point)) :=
  if attrib.shape.length < 2 then
    Except.error "MalformedGeometry: LineString requires at least 2 coordinate pairs"
  else
    Except.ok
      { attr :=
          { id := attrib.id
            index := attrib.index
            speed := attrib.speed
            allows := Allowance.ofStrings (attrib.allow.getD []) (attrib.disallow.getD [])
            width := attrib.width.getD DEFAULT_LANE_WIDTH
            endOffset := attrib.endOffset.getD "0"
            acceleration := attrib.acceleration.getD "False"
            stop_offsets := [] }
        alignment := attrib.shape
        parentEdge := none
        requests := [] }

/-- Offset side for the geometry kernel's `parallel_offset`. -/
inductive Side
  | left
  | right
deriving DecidableEq

/-- External 2D geometry kernel (the shapely operations used by the embedded code),
abstracted into uninterpreted operations over a line-string type `α`:
`parallel_offset` returns `none` when the underlying operation raises
(`ValueError` / `NotImplementedError`), `coords` yields a curve's coordinate sequence,
`lineString` builds a curve from coordinates, `substring` and `length` model
`shapely.ops.substring` and arc length. -/
structure Geo (α : Type) where
  parallel_offset : α → ℚ → Side → Option α
  substring : α → ℚ → ℚ → α
  length : α → ℚ
  coords : α → List Point
  lineString : List Point → α

/-- The process-wide style settings (`LANE_MARKINGS_STYLE`, `PLOT_STOP_LINES`,
`STRIPE_WIDTH_SCALE_FACTOR`, `Net.py` 19-34), threaded explicitly as configuration. -/
structure Config where
  style : String
  plot_stop_lines : Bool
  stripe_width_scale : ℚ
deriving DecidableEq

/-- A `_LaneMarking` (`Net.py` 163-180); the `parent_lane` back-reference is dropped. -/
structure Marking (α : Type) where
  purpose : String
  alignment : α
  linewidth : ℚ
  color : String
  dashes : ℚ × ℚ

/-- Lifts an external result into the raising model: `none` stands for a raised
exception, which becomes an error with the given message. -/
def raising {β : Type} (o : Option β) (msg : String) : Except String β :=
  match o with
  | some b => Except.ok b
  | none => Except.error msg

/-- Error message standing for a raised curve-offset failure. -/
def offsetFailure : String := "CurveOffsetFailure: parallel_offset raised"

/-- Embeds `_Lane.lane_type` (`Net.py` 269-291). -/
def Lane.lane_type {α : Type} (lane : Lane α) : String :=
  if lane.attr.allows.eqString "pedestrian".toList then
    if (match lane.parentEdge with
        | some e => decide (e.function = "crossing")
        | none => false) then "crosswalk"
    else "pedestrian"
  else if lane.attr.allows.eqString "bicycle".toList then "bicycle"
  else if lane.attr.allows.eqString "ship".toList then "ship"
  else if lane.attr.allows.eqString "authority".toList then "authority"
  else if lane.attr.allows.eqString "none".toList then "none"
  else if !(lane.attr.allows.allows "passenger".toList) then "no_passenger"
  else "other"

/-- Embeds `_Lane.inverse_lane_index` (`Net.py` 335-341); accessing an unresolved parent
edge raises. -/
def Lane.inverse_lane_index {α : Type} (lane : Lane α) : Except String Int :=
  match lane.parentEdge with
  | none => Except.error "AttributeError: parentEdge is None"
  | some e => Except.ok ((e.lane_count : Int) - lane.attr.index - 1)

/-- Embeds `_Lane.get_stop_line_locations` (`Net.py` 357-374): the loop accumulating
`accrued_vClasses` and `stop_line_locations` together is the paired fold. -/
def Lane.get_stop_line_locations {α : Type} (lane : Lane α) : List ℚ :=
  let stop_offsets :=
    if lane.attr.stop_offsets.length > 0 then lane.attr.stop_offsets
    else
      match lane.parentEdge with
      | some e => e.stop_offsets
      | none => []
  let acc := stop_offsets.foldl
    (fun (p : Allowance × List ℚ) so => (p.1.add so.2, p.2 ++ [so.1]))
    (Allowance.ofStrings "none".toList [], [])
  if !(acc.1.is_superset_of lane.attr.allows) && !(decide ((0 : ℚ) ∈ acc.2)) then
    acc.2 ++ [0]
  else acc.2

/-- Embeds `_Lane._requires_stop_line` (`Net.py` 376-389); accessing
`parentEdge.to_junction.type` raises when either reference is unresolved. -/
def Lane.requires_stop_line {α : Type} (lane : Lane α) : Except String Bool :=
  match lane.parentEdge with
  | none => Except.error "AttributeError: parentEdge is None"
  | some e =>
    match e.to_junction with
    | none => Except.error "AttributeError: to_junction is None"
    | some j =>
      if j.type = "internal" ∨ j.type = "zipper" then Except.ok false
      else if j.type = "always_stop" then Except.ok true
      else Except.ok (lane.requests.any (fun r => r.response.contains '1'))

/-- Embeds `_Lane._guess_lane_markings` (`Net.py` 440-518), parameterized by the geometry
kernel `g` and the global style configuration `cfg`. Offset failures are uncaught in the
source and propagate as errors; the `hasattr(ops, "substring")` compatibility check is
modelled as passing (shapely >= 1.7); `self.inverse_lane_index()` is inlined through the
already-resolved parent edge. The source duplicates the centerline / lane / outer
marking block for the USA and EUR styles, differing only in the centerline offset
distance and color; the duplication is kept. -/
def Lane.guess_lane_markings {α : Type} (g : Geo α) (cfg : Config) (lane : Lane α) :
    Except String (List (Marking α)) :=
  match lane.parentEdge with
  | none => Except.error "AttributeError: parentEdge is None"
  | some parent =>
    if parent.function = "internal" ∨ lane.attr.allows.eqString "ship".toList ∨
        lane.attr.allows.eqString "rail".toList then
      Except.ok []
    else if parent.function = "crossing" then
      Except.ok [⟨"crossing", lane.alignment, lane.attr.width, "w", (1/2, 1/2)⟩]
    else
      let lw : ℚ := 1/10 * cfg.stripe_width_scale
      let styled : Except String (List (Marking α)) :=
        if cfg.style = "USA" then
          let centerOrLane : Except String (List (Marking α)) :=
            if (parent.lane_count : Int) - lane.attr.index - 1 = 0 then
              match g.parallel_offset lane.alignment (lane.attr.width/2 - lw) Side.left with
              | none => Except.error offsetFailure
              | some leftEdge => Except.ok [⟨"center", leftEdge, lw, "y", (100, 0)⟩]
            else
              match parent.get_lane (lane.attr.index + 1) with
              | Except.error e => Except.error e
              | Except.ok adjacent_lane =>
                match g.parallel_offset lane.alignment (lane.attr.width/2) Side.left with
                | none => Except.error offsetFailure
                | some leftEdge =>
                  let dashes : ℚ × ℚ :=
                    if lane.attr.allows.allows "bicycle".toList ≠
                        adjacent_lane.allows.allows "bicycle".toList then (100, 0)
                    else if lane.attr.allows.allows "passenger".toList ≠
                        adjacent_lane.allows.allows "passenger".toList then
                      if lane.attr.allows.allows "bicycle".toList then (1, 3) else (100, 0)
                    else (3, 9)
                  Except.ok [⟨"lane", leftEdge, lw, "w", dashes⟩]
          match centerOrLane with
          | Except.error e => Except.error e
          | Except.ok ms =>
            if lane.attr.index = 0 ∧
                ¬(lane.attr.allows.allows "pedestrian".toList = true ∧
                  lane.attr.allows.allows "all".toList = false) then
              match g.parallel_offset lane.alignment (lane.attr.width/2) Side.right with
              | none => Except.error offsetFailure
              | some rightEdge => Except.ok (ms ++ [⟨"outer", rightEdge, lw, "w", (100, 0)⟩])
            else Except.ok ms
        else if cfg.style = "EUR" then
          let centerOrLane : Except String (List (Marking α)) :=
            if (parent.lane_count : Int) - lane.attr.index - 1 = 0 then
              match g.parallel_offset lane.alignment (lane.attr.width/2) Side.left with
              | none => Except.error offsetFailure
              | some leftEdge => Except.ok [⟨"center", leftEdge, lw, "w", (100, 0)⟩]
            else
              match parent.get_lane (lane.attr.index + 1) with
              | Except.error e => Except.error e
              | Except.ok adjacent_lane =>
                match g.parallel_offset lane.alignment (lane.attr.width/2) Side.left with
                | none => Except.error offsetFailure
                | some leftEdge =>
                  let dashes : ℚ × ℚ :=
                    if lane.attr.allows.allows "bicycle".toList ≠
                        adjacent_lane.allows.allows "bicycle".toList then (100, 0)
                    else if lane.attr.allows.allows "passenger".toList ≠
                        adjacent_lane.allows.allows "passenger".toList then
                      if lane.attr.allows.allows "bicycle".toList then (1, 3) else (100, 0)
                    else (3, 9)
                  Except.ok [⟨"lane", leftEdge, lw, "w", dashes⟩]
          match centerOrLane with
          | Except.error e => Except.error e
          | Except.ok ms =>
            if lane.attr.index = 0 ∧
                ¬(lane.attr.allows.allows "pedestrian".toList = true ∧
                  lane.attr.allows.allows "all".toList = false) then
              match g.parallel_offset lane.alignment (lane.attr.width/2) Side.right with
              | none => Except.error offsetFailure
              | some rightEdge => Except.ok (ms ++ [⟨"outer", rightEdge, lw, "w", (100, 0)⟩])
            else Except.ok ms
        else Except.ok []
      match styled with
      | Except.error e => Except.error e
      | Except.ok markings =>
        let slw : ℚ := 1/2
        if cfg.plot_stop_lines = true ∧ lane.attr.allows.eqString "pedestrian".toList = false ∧
            lane.attr.allows.eqString "ship".toList = false then
          match lane.requires_stop_line with
          | Except.error e => Except.error e
          | Except.ok false => Except.ok markings
          | Except.ok true =>
            lane.get_stop_line_locations.foldlM
              (fun (ms : List (Marking α)) stop_line_location =>
                let pos := g.length lane.alignment - stop_line_location - slw/2
                let end_cl := g.substring lane.alignment (pos - 1) pos
                match g.parallel_offset end_cl (lane.attr.width/2) Side.left with
                | none => Except.error offsetFailure
                | some end_left =>
                  match g.parallel_offset end_cl (lane.attr.width/2) Side.right with
                  | none => Except.error offsetFailure
                  | some end_right =>
                    match (g.coords end_left).getLast?, (g.coords end_right).head? with
                    | some pl, some pr =>
                      Except.ok (ms ++ [⟨"stopline", g.lineString [pl, pr], slw, "w", (100, 0)⟩])
                    | _, _ => Except.error "IndexError: list index out of range")
              markings
        else Except.ok markings

/-- A `_Connection` after linking (`Net.py` 541-566), restricted to the lane references
used by shape generation. -/
structure Connection (α : Type) where
  from_lane : Option (Lane α)
  to_lane : Option (Lane α)
  via_lane : Option (Lane α)

/-- Embeds `_Connection._generate_shape` (`Net.py` 568-598), returning the closed boundary
ring of the generated polygon. Only the two via-lane offset calls are wrapped in
`try/except` in the source (falling back to no interior coordinates); the four from-lane
and to-lane offset calls are not, so their failure propagates, as does the `IndexError` from
indexing an empty coordinate sequence. -/
def Connection.generate_shape {α : Type} (g : Geo α) (c : Connection α) :
    Except String (List Point) :=
  match c.from_lane, c.to_lane, c.via_lane with
  | some fl, some tl, some vl =>
    (match g.parallel_offset fl.alignment (fl.attr.width/2) Side.left,
           g.parallel_offset fl.alignment (fl.attr.width/2) Side.right,
           g.parallel_offset tl.alignment (tl.attr.width/2) Side.left,
           g.parallel_offset tl.alignment (tl.attr.width/2) Side.right with
     | some fle, some fre, some tle, some tre =>
       let from_lane_left_edge := g.coords fle
       let from_lane_right_edge := g.coords fre
       let to_lane_left_edge := g.coords tle
       let to_lane_right_edge := g.coords tre
       let left_edge : List Point :=
         match g.parallel_offset vl.alignment (fl.attr.width/2) Side.left with
         | some e => g.coords e
         | none => []
       let right_edge : List Point :=
         (match g.parallel_offset vl.alignment (fl.attr.width/2) Side.right with
          | some e => g.coords e
          | none => []).reverse
       match from_lane_left_edge.getLast?, to_lane_left_edge.head?,
             from_lane_right_edge.head?, to_lane_right_edge.getLast? with
       | some fll, some tll, some frh, some trl =>
         let left_coords := [fll] ++ (left_edge.drop 1).dropLast ++ [tll]
         let right_coords := [frh] ++ (right_edge.drop 1).dropLast ++ [trl]
         let left_coords := left_coords.reverse
         let boundary_coords := right_coords ++ left_coords ++ [frh]
         Except.ok boundary_coords
       | _, _, _, _ => Except.error "IndexError: list index out of range"
     | _, _, _, _ => Except.error offsetFailure)
  | _, _, _ =>
    Except.error "ReferenceError: Valid reference to from-, to-, and via-lanes required to generate connection shape."

/-- A 3D mesh object (`Object3D.__init__`, `_Utils.py` 24-44). -/
structure Object3D where
  name : String
  material : String
  vertices : List Point3
  faces : List (List Nat)
  lines : List (List Nat)
deriving DecidableEq

/-- Shapely geometry handed to `Object3D.from_shape`, by geometry type: polygons carry
their boundary-ring coordinates, line strings their coordinates; `other` stands for any
further geometry type (unsupported). -/
inductive ShapelyShape
  | polygon (boundary : List Point)
  | multiPolygon (boundaries : List (List Point))
  | lineString (coords : List Point)
  | multiLineString (parts : List (List Point))
  | other (typeName : String)
deriving DecidableEq

/-- Embeds `Object3D.from_shape` (`_Utils.py` 46-102). Inside the per-outline loop the
source assigns `lines = [...]` (rather than appending as it does for faces), so each
iteration replaces the accumulated line records; the fold reproduces this. -/
def Object3D.from_shape (shape : ShapelyShape) (name material : String) (z : ℚ)
    (extrude_height : ℚ) (include_bottom_face : Bool) (include_top_face : Bool) :
    Except String Object3D :=
  match shape with
  | ShapelyShape.other typeName =>
    Except.error ("NotImplementedError: Can't generate 3D object from " ++ typeName)
  | _ =>
    let outlines : List (List Point) :=
      match shape with
      | ShapelyShape.multiPolygon bs => bs
      | ShapelyShape.polygon b => [b]
      | ShapelyShape.multiLineString ps => ps
      | ShapelyShape.lineString cs => [cs]
      | ShapelyShape.other _ => []
    let isLine : Bool :=
      match shape with
      | ShapelyShape.multiLineString _ => true
      | ShapelyShape.lineString _ => true
      | _ => false
    let resetFaces := isLine && (include_top_face || include_bottom_face)
    let include_bottom_face := if resetFaces then false else include_bottom_face
    let include_top_face := if resetFaces then false else include_top_face
    let acc := outlines.foldl
      (fun (acc : List Point3 × List (List Nat) × List (List Nat)) outline =>
        let vertices := acc.1
        let faces := acc.2.1
        let lines := acc.2.2
        let top_vertices := outline.map (fun v => (v.1, v.2, z + extrude_height))
        let v_offset := vertices.length
        let edge_len := top_vertices.length
        let vertices := vertices ++ top_vertices
        let fl : List (List Nat) × List (List Nat) :=
          if include_top_face then
            (faces ++ [(List.range edge_len).map (fun i => v_offset + i + 1)], lines)
          else if extrude_height = 0 ∧ include_bottom_face = false then
            (faces, [(List.range edge_len).map (fun i => v_offset + i + 1)])
          else (faces, lines)
        let faces := fl.1
        let lines := fl.2
        if extrude_height ≠ 0 then
          let bottom_vertices := outline.map (fun v => (v.1, v.2, z))
          let vertices := vertices ++ bottom_vertices
          let faces := faces ++ (List.range (edge_len - 1)).map
            (fun k => [v_offset + k + edge_len + 1, v_offset + k + edge_len + 2,
                       v_offset + k + 2, v_offset + k + 1])
          let faces :=
            if include_bottom_face then
              faces ++ [((List.range edge_len).reverse).map (fun i => v_offset + i + edge_len + 1)]
            else faces
          (vertices, faces, lines)
        else (vertices, faces, lines))
      ([], [], [])
    Except.ok ⟨name, material, acc.1, acc.2.1, acc.2.2⟩

/-- A `Net` restricted to its edge dictionary (`Net.py` 758-830): an insertion-ordered
id-to-edge association list. -/
structure Net where
  edges : List (String × Edge)

/-- Python `self.edges.get(edge_id, None)`. -/
def Net.getEdge (net : Net) (edge_id : String) : Option Edge :=
  (net.edges.find? (fun p => decide (p.1 = edge_id))).map (fun p => p.2)

/-- Embeds the decimal-digit run parse underlying Python `int()`: every character must be
a decimal digit and at least one must be present. -/
def digitsToNat? (s : List Char) : Option Nat :=
  if s = [] ∨ ¬ s.all Char.isDigit then none
  else some (s.foldl (fun acc c => acc * 10 + (c.toNat - Char.toNat '0')) 0)

/-- Embeds Python `int()` on an id suffix: an optional minus sign followed by decimal
digits; `none` corresponds to the raised `ValueError`. -/
def parseInt? (s : List Char) : Option Int :=
  match s with
  | '-' :: rest => (digitsToNat? rest).map (fun n => -(n : Int))
  | _ => (digitsToNat? s).map (fun n => (n : Int))

/-- Embeds `Net._get_lane` (`Net.py` 925-929): the lane id is split on its last
underscore (the split and join are performed at the character-list level, matching
Python `str.split` and `str.join`); an unknown edge id yields `None`, while a known
edge without the parsed index propagates `Edge.get_lane`'s `IndexError`; a non-numeric
index suffix is the `ValueError` raised by `int()`. -/
def Net.get_lane (net : Net) (lane_id : String) : Except String (Option LaneRec) :=
  let parts := lane_id.toList.splitOn '_'
  let edge_id := String.mk (['_'].intercalate parts.dropLast)
  match parseInt? (parts.getLastD []) with
  | none => Except.error "ValueError: invalid literal for int()"
  | some lane_num =>
    match net.getEdge edge_id with
    | some edge => (edge.get_lane lane_num).map some
    | none => Except.ok none

/-! Concrete inputs used by witnesses and counterexamples. -/

/-- Geometry kernel used for concrete evaluations: a line string is its coordinate list;
`parallel_offset` raises exactly on degenerate (fewer than two points) input, keeps the
coordinates on the left side and reverses them on the right side. -/
def witnessGeo : Geo (List Point) :=
  { parallel_offset := fun pl _ s =>
      if pl.length < 2 then none
      else
        match s with
        | Side.left => some pl
        | Side.right => some pl.reverse
    substring := fun pl _ _ => pl
    length := fun _ => 0
    coords := fun pl => pl
    lineString := fun pl => pl }

/-- A lane record allowing every vehicle class, at index 0. -/
def laneAttrA : LaneRec :=
  { id := "gneE0_0", index := 0, speed := 250/18,
    allows := Allowance.ofStrings "all".toList [],
    width := 16/5, endOffset := "0", acceleration := "False", stop_offsets := [] }

/-- A one-lane normal edge owning `laneAttrA`. -/
def edgeA : Edge :=
  { id := "gneE0", function := "normal", lanes := [laneAttrA], stop_offsets := [],
    to_junction := none }

/-- The linked lane of the one-lane edge `edgeA`. -/
def laneA : Lane (List Point) :=
  { attr := laneAttrA, alignment := [(0, 0), (10, 0)], parentEdge := some edgeA,
    requests := [] }

/-- EUR style with stop lines disabled, unit stripe scale. -/
def cfgEUR : Config := { style := "EUR", plot_stop_lines := false, stripe_width_scale := 1 }

/-- A pedestrian-only lane record. -/
def laneAttrPed : LaneRec :=
  { id := "cw0_0", index := 0, speed := 5/2,
    allows := Allowance.ofStrings "pedestrian".toList [],
    width := 2, endOffset := "0", acceleration := "False", stop_offsets := [] }

/-- A crossing-function edge owning the pedestrian lane. -/
def edgeCrossing : Edge :=
  { id := "cw0", function := "crossing", lanes := [laneAttrPed], stop_offsets := [],
    to_junction := none }

/-- A pedestrian lane linked into a crossing edge. -/
def lanePed : Lane (List Point) :=
  { attr := laneAttrPed, alignment := [(0, 0), (2, 0)], parentEdge := some edgeCrossing,
    requests := [] }

/-- A priority junction with one request record. -/
def junPriority : Junction :=
  { id := "gneJ1", type := "priority", incLane_ids := ["gneE0_0"], intLane_ids := [":gneJ1_0_0"],
    requests := [⟨0, "010".toList, "010".toList, "0"⟩], shape := none }

/-- An edge whose destination junction is the priority junction. -/
def edgeToPriority : Edge :=
  { id := "gneE0", function := "normal", lanes := [laneAttrA], stop_offsets := [],
    to_junction := some junPriority }

/-- A lane that must yield: its single attached request has a '1' response bit. -/
def laneYield : Lane (List Point) :=
  { attr := laneAttrA, alignment := [(0, 0), (10, 0)], parentEdge := some edgeToPriority,
    requests := [⟨0, "010".toList, "010".toList, "0"⟩] }

/-- A mixed (neither all-true nor all-false) allowance mask: bus only. -/
def maskBus : List Bool := (Allowance.ofStrings "bus".toList []).mask

/-- From-lane of the degenerate-via connection. -/
def laneFrom : Lane (List Point) :=
  { attr := laneAttrA, alignment := [(0, 0), (4, 0)], parentEdge := none, requests := [] }

/-- To-lane of the degenerate-via connection. -/
def laneTo : Lane (List Point) :=
  { attr := laneAttrA, alignment := [(6, 0), (10, 0)], parentEdge := none, requests := [] }

/-- Via-lane with a degenerate (single-point) centerline: both parallel offsets raise
under `witnessGeo`. -/
def laneVia : Lane (List Point) :=
  { attr := laneAttrA, alignment := [(5, 0)], parentEdge := none, requests := [] }

/-- A fully linked connection whose via-lane offsets fail on both sides. -/
def connDegenerateVia : Connection (List Point) :=
  ⟨some laneFrom, some laneTo, some laneVia⟩

/-- Lane attributes whose shape parses to a single coordinate pair. -/
def laneAttribShortShape : LaneAttrib :=
  { id := "e1_0", index := 0, speed := 10, allow := none, disallow := none, width := none,
    endOffset := none, acceleration := none, shape := [(0, 0)] }

/-- Junction attributes whose shape parses to exactly two coordinate pairs. -/
def junAttribTwoPoint : JunctionAttrib :=
  { id := "gneJ2", type := "priority", incLanes := [], intLanes := [],
    shape := some [(0, 0), (1, 1)] }

/-- A two-component multi-line-string input (each component two vertices). -/
def mlsTwoParts : ShapelyShape :=
  ShapelyShape.multiLineString [[(0, 0), (1, 0)], [(2, 0), (3, 0)]]

/-- A bus-only stop-offset rule 5 distance units from the lane end. -/
def laneAttrWithOffsets : LaneRec :=
  { id := "gneE0_0", index := 0, speed := 250/18,
    allows := Allowance.ofStrings "all".toList [],
    width := 16/5, endOffset := "0", acceleration := "False",
    stop_offsets := [(5, Allowance.ofStrings "bus".toList [])] }

/-- An unlinked lane carrying its own single bus-only stop offset. -/
def laneWithOffsets : Lane (List Point) :=
  { attr := laneAttrWithOffsets, alignment := [(0, 0), (10, 0)], parentEdge := none,
    requests := [] }

/-- Lane attributes omitting both the allow and the disallow attribute. -/
def laneAttribNoPerms : LaneAttrib :=
  { id := "e1_0", index := 0, speed := 10, allow := none, disallow := none, width := none,
    endOffset := none, acceleration := none, shape := [(0, 0), (1, 1)] }

/-- A network containing the single one-lane edge `edgeA` under id `"gneE0"`. -/
def netA : Net := { edges := [("gneE0", edgeA)] }

/-- The lane that `laneInit` produces from `laneAttribNoPerms`. -/
def laneNoPerm : Lane (List Point) :=
  { attr := { id := "e1_0", index := 0, speed := 10,
              allows := Allowance.ofStrings [] [], width := DEFAULT_LANE_WIDTH,
              endOffset := "0", acceleration := "False", stop_offsets := [] }
    alignment := [(0, 0), (1, 1)], parentEdge := none, requests := [] }

/-! Spec-side definitions, transcribed from the specification's words, used to compare the
embedded source functions against the specified behaviour. -/

/-- Spec-side notion of an allowance that exclusively allows the class `c`: the mask is
true at exactly the entry for `c`. -/
def exclusivelyAllows (a : Allowance) (c : List Char) : Bool :=
  decide (a.mask = vClass_list.map (fun n => decide (n = c)))

/-- Spec-side lane classification: pedestrian-only lanes inside an edge whose function is
crossing classify as crosswalk; otherwise the first match in priority order pedestrian,
bicycle, ship, authority, disallow-all, passenger-disallowed, other. -/
def laneTypeSpec (a : Allowance) (edge_function : String) : String :=
  if exclusivelyAllows a "pedestrian".toList then
    if edge_function = "crossing" then "crosswalk" else "pedestrian"
  else if exclusivelyAllows a "bicycle".toList then "bicycle"
  else if exclusivelyAllows a "ship".toList then "ship"
  else if exclusivelyAllows a "authority".toList then "authority"
  else if a.mask.all (fun b => !b) then "none"
  else if !(a.allows "passenger".toList) then "no_passenger"
  else "other"

/-- Spec-side selected stop-offset rule list for a lane: its own rules when it has at
least one, otherwise the parent edge's rules (empty when the parent is unresolved). -/
def laneBaseOffsets {α : Type} (lane : Lane α) : List (ℚ × Allowance) :=
  if lane.attr.stop_offsets ≠ [] then lane.attr.stop_offsets
  else
    match lane.parentEdge with
    | some e => e.stop_offsets
    | none => []

/-- Spec-side accrued vehicle-class coverage of the selected stop-offset rules: the union
(sum) of their allowances. -/
def laneAccrued {α : Type} (lane : Lane α) : Allowance :=
  (laneBaseOffsets lane).foldl (fun a so => a.add so.2) (Allowance.ofStrings "none".toList [])

/-! Helper lemmas. -/

theorem vClass_list_nodup : vClass_list.Nodup := by decide

theorem vClass_list_length : vClass_list.length = 26 := rfl

theorem space_notMem_vClass : ∀ n ∈ vClass_list, ' ' ∉ n := by decide

theorem all_str_notMem : "all".toList ∉ vClass_list := by decide

theorem none_str_notMem : "none".toList ∉ vClass_list := by decide

theorem nil_notMem : ([] : List Char) ∉ vClass_list := by decide

theorem intercalate_single (n : List Char) : [' '].intercalate [n] = n := by
  simp [List.intercalate]

theorem space_mem_intercalate (a b : List Char) (rest : List (List Char)) :
    ' ' ∈ [' '].intercalate (a :: b :: rest) := by
  simp [List.intercalate, List.intersperse_cons_cons]

theorem intercalate_ne_special (sel : List (List Char)) (hsub : ∀ n ∈ sel, n ∈ vClass_list)
    (hne : sel ≠ []) (t : List Char) (ht : ' ' ∉ t) (htv : t ∉ vClass_list) :
    [' '].intercalate sel ≠ t := by
  match sel, hne with
  | [n], _ =>
    rw [intercalate_single]
    intro h
    exact htv (h ▸ hsub n (by simp))
  | a :: b :: rest, _ =>
    intro h
    exact ht (h ▸ space_mem_intercalate a b rest)

theorem mem_selection_iff (pr : List Char × Bool → Bool) (m : List Bool) (h : m.length = 26)
    (i : Nat) (hv : i < vClass_list.length) (hm : i < m.length) :
    (vClass_list[i] ∈ ((vClass_list.zip m).filter pr).map (fun p => p.1)) ↔
      pr (vClass_list[i], m[i]) = true := by
  have hi26 : i < 26 := by rwa [vClass_list_length] at hv
  have hzlen : (vClass_list.zip m).length = 26 := by
    rw [List.length_zip, vClass_list_length, h]; exact min_self 26
  constructor
  · intro hmem
    rcases List.mem_map.1 hmem with ⟨p, hpf, hp1⟩
    rcases List.mem_filter.1 hpf with ⟨hpz, hq⟩
    rcases List.mem_iff_getElem.1 hpz with ⟨j, hj, hjp⟩
    have hj26 : j < 26 := by rwa [hzlen] at hj
    have hjv : j < vClass_list.length := by rw [vClass_list_length]; exact hj26
    have hjm : j < m.length := by rw [h]; exact hj26
    rw [List.getElem_zip] at hjp
    have h1 : vClass_list[j] = vClass_list[i] := by
      rw [← hp1, ← hjp]
    have hij : j = i := (vClass_list_nodup.getElem_inj_iff).1 h1
    subst hij
    rwa [hjp]
  · intro hq
    refine List.mem_map.2 ⟨(vClass_list[i], m[i]), ?_, rfl⟩
    refine List.mem_filter.2 ⟨?_, hq⟩
    refine List.mem_iff_getElem.2 ⟨i, by rw [hzlen]; exact hi26, ?_⟩
    rw [List.getElem_zip]

/-- Helper: the paired fold accumulating the allowance union and the offset-value list
splits into the union fold and the mapped value list. -/
theorem foldl_pair_spec (sos : List (ℚ × Allowance)) (a0 : Allowance) (l0 : List ℚ) :
    sos.foldl (fun (p : Allowance × List ℚ) so => (p.1.add so.2, p.2 ++ [so.1])) (a0, l0) =
      (sos.foldl (fun a so => a.add so.2) a0, l0 ++ sos.map Prod.fst) := by
  induction sos generalizing a0 l0 with
  | nil => simp
  | cons so rest ih =>
    simp only [List.foldl_cons, List.map_cons]
    rw [ih]
    simp

/-! Claim theorems. -/

/-- C2: for every lane with a resolved parent edge (and the class invariant of a 26-entry
mask), the source lane-type classification agrees with the spec-side priority
classification: crosswalk for pedestrian-only lanes on a crossing edge, otherwise the
first match in the order pedestrian, bicycle, ship, authority, disallow-all,
passenger-disallowed, other. -/
theorem lane_type_matches_spec {α : Type} (lane : Lane α) (e : Edge)
    (hp : lane.parentEdge = some e) (hlen : lane.attr.allows.mask.length = 26) :
    lane.lane_type = laneTypeSpec lane.attr.allows e.function := by
  have hE : ∀ c : List Char,
      (Allowance.ofStrings c []).mask = vClass_list.map (fun n => decide (n = c)) →
      lane.attr.allows.eqString c = exclusivelyAllows lane.attr.allows c := by
    intro c hc
    unfold Allowance.eqString exclusivelyAllows
    rw [hc]
  have hnone : lane.attr.allows.eqString "none".toList =
      lane.attr.allows.mask.all (fun b => !b) := by
    unfold Allowance.eqString
    have h26 : (Allowance.ofStrings "none".toList []).mask = List.replicate 26 false := by
      decide
    rw [h26]
    have hiff : (lane.attr.allows.mask = List.replicate 26 false) ↔
        lane.attr.allows.mask.all (fun b => !b) = true := by
      rw [List.eq_replicate_iff, List.all_eq_true]
      simp [hlen]
    cases h2 : decide (lane.attr.allows.mask = List.replicate 26 false) with
    | true => exact (hiff.1 (of_decide_eq_true h2)).symm
    | false =>
      cases h3 : lane.attr.allows.mask.all (fun b => !b) with
      | true => exact absurd (hiff.2 h3) (of_decide_eq_false h2)
      | false => rfl
  unfold Lane.lane_type laneTypeSpec
  rw [hp, hE "pedestrian".toList (by decide), hE "bicycle".toList (by decide),
      hE "ship".toList (by decide), hE "authority".toList (by decide), hnone]
  simp

/-- Witness for the C2 theorem: the pedestrian-only lane on the crossing edge. -/
theorem lane_type_matches_spec_witness :
    lanePed.lane_type = laneTypeSpec lanePed.attr.allows edgeCrossing.function :=
  lane_type_matches_spec lanePed edgeCrossing rfl (by decide)

/-- C3: for every lane whose parent edge has a resolved destination junction, the
stop-line guard returns false for junction types internal and zipper, true for
always_stop, and otherwise true exactly when some request attached to the lane has a
'1' character in its response bitstring. -/
theorem requires_stop_line_spec {α : Type} (lane : Lane α) (e : Edge) (j : Junction)
    (hp : lane.parentEdge = some e) (hj : e.to_junction = some j) :
    (j.type = "internal" ∨ j.type = "zipper" → lane.requires_stop_line = Except.ok false) ∧
    (j.type = "always_stop" → lane.requires_stop_line = Except.ok true) ∧
    (j.type ≠ "internal" → j.type ≠ "zipper" → j.type ≠ "always_stop" →
      (lane.requires_stop_line = Except.ok true ↔ ∃ r ∈ lane.requests, '1' ∈ r.response)) := by
  simp only [Lane.requires_stop_line, hp, hj]
  refine ⟨fun h1 => ?_, fun h2 => ?_, fun h3 h4 h5 => ?_⟩
  · rw [if_pos h1]
  · rw [if_neg (by rw [h2]; decide), if_pos h2]
  · rw [if_neg (not_or.2 ⟨h3, h4⟩), if_neg h5]
    simp only [Except.ok.injEq, List.any_eq_true]
    constructor
    · rintro ⟨r, hr, hcr⟩
      exact ⟨r, hr, List.elem_iff.1 hcr⟩
    · rintro ⟨r, hr, hcr⟩
      exact ⟨r, hr, List.elem_iff.2 hcr⟩

/-- Witness for the C3 theorem: a yielding lane at a priority junction whose request
response contains a '1' bit. -/
theorem requires_stop_line_spec_witness :
    laneYield.requires_stop_line = Except.ok true ↔
      ∃ r ∈ laneYield.requests, '1' ∈ r.response :=
  (requires_stop_line_spec laneYield edgeToPriority junPriority rfl rfl).2.2
    (by decide) (by decide) (by decide)

/-- C4: for every 26-entry allowance mask, constructing a new allowance from the
generated allow string and the generated disallow string reproduces exactly the same
mask (round trip, including the all-true and all-false masks which serialize to the
sentinels). -/
theorem allowance_roundtrip (m : List Bool) (h : m.length = 26) :
    (Allowance.ofStrings (Allowance.get_allow_string ⟨m⟩)
      (Allowance.get_disallow_string ⟨m⟩)).mask = m := by
  by_cases hall : m.all id = true
  · have hm : m = List.replicate 26 true := by
      rw [List.eq_replicate_iff]
      refine ⟨h, fun b hb => ?_⟩
      simpa using List.all_eq_true.1 hall b hb
    rw [hm]
    decide
  · by_cases hany : m.any id = true
    · -- mixed mask
      have hallF : m.all id = false := by
        revert hall
        cases m.all id <;> simp
      have hvsub : ∀ (pr : List Char × Bool → Bool) n,
          n ∈ ((vClass_list.zip m).filter pr).map (fun p => p.1) → n ∈ vClass_list := by
        intro pr n hn
        rcases List.mem_map.1 hn with ⟨⟨n', b⟩, hpf, hp1⟩
        rcases List.mem_filter.1 hpf with ⟨hpz, _⟩
        exact hp1 ▸ (List.of_mem_zip hpz).1
      have hspace : ∀ (pr : List Char × Bool → Bool) l,
          l ∈ ((vClass_list.zip m).filter pr).map (fun p => p.1) → ' ' ∉ l :=
        fun pr l hl => space_notMem_vClass l (hvsub pr l hl)
      obtain ⟨x, hxm, hx⟩ := List.any_eq_true.1 hany
      obtain ⟨i, hi, hmi⟩ := List.mem_iff_getElem.1 hxm
      have hi26 : i < 26 := by rwa [h] at hi
      have hvi : i < vClass_list.length := by rw [vClass_list_length]; exact hi26
      have hselne : ((vClass_list.zip m).filter (fun p => p.2)).map (fun p => p.1) ≠ [] := by
        apply List.ne_nil_of_mem (a := vClass_list[i])
        refine (mem_selection_iff (fun p => p.2) m h i hvi hi).2 ?_
        have hxT : x = true := by simpa using hx
        simp [hmi, hxT]
      have hexf : ∃ x ∈ m, x = false := by
        by_contra hc
        push_neg at hc
        exact hall (List.all_eq_true.2 (fun b hb => by
          cases hbv : b
          · exact absurd hbv (hc b hb)
          · rfl))
      obtain ⟨y, hym, hy⟩ := hexf
      obtain ⟨j, hj, hmj⟩ := List.mem_iff_getElem.1 hym
      have hj26 : j < 26 := by rwa [h] at hj
      have hvj : j < vClass_list.length := by rw [vClass_list_length]; exact hj26
      have hunselne : ((vClass_list.zip m).filter (fun p => !p.2)).map (fun p => p.1) ≠ [] := by
        apply List.ne_nil_of_mem (a := vClass_list[j])
        refine (mem_selection_iff (fun p => !p.2) m h j hvj hj).2 ?_
        simp [hmj, hy]
      have hsubSel : ∀ n ∈ ((vClass_list.zip m).filter (fun p => p.2)).map (fun p => p.1),
          n ∈ vClass_list := fun n hn => hvsub (fun p => p.2) n hn
      have hsubUnsel : ∀ n ∈ ((vClass_list.zip m).filter (fun p => !p.2)).map (fun p => p.1),
          n ∈ vClass_list := fun n hn => hvsub (fun p => !p.2) n hn
      have hgas : Allowance.get_allow_string ⟨m⟩ =
          [' '].intercalate (((vClass_list.zip m).filter (fun p => p.2)).map (fun p => p.1)) := by
        simp [Allowance.get_allow_string, hallF, hany]
      have hgds : Allowance.get_disallow_string ⟨m⟩ =
          [' '].intercalate (((vClass_list.zip m).filter (fun p => !p.2)).map (fun p => p.1)) := by
        simp [Allowance.get_disallow_string, hallF, hany]
      rw [hgas, hgds]
      have hne_a_all := intercalate_ne_special _ hsubSel hselne "all".toList
        (by decide) all_str_notMem
      have hne_a_nil := intercalate_ne_special _ hsubSel hselne [] (by decide) nil_notMem
      have hne_a_none := intercalate_ne_special _ hsubSel hselne "none".toList
        (by decide) none_str_notMem
      have hne_d_all := intercalate_ne_special _ hsubUnsel hunselne "all".toList
        (by decide) all_str_notMem
      have hne_d_nil := intercalate_ne_special _ hsubUnsel hunselne [] (by decide) nil_notMem
      have hsplit_sel := List.splitOn_intercalate
        (((vClass_list.zip m).filter (fun p => p.2)).map (fun p => p.1)) ' '
        (fun l hl => hspace (fun p => p.2) l hl) hselne
      have hsplit_unsel := List.splitOn_intercalate
        (((vClass_list.zip m).filter (fun p => !p.2)).map (fun p => p.1)) ' '
        (fun l hl => hspace (fun p => !p.2) l hl) hunselne
      have hmask : (Allowance.ofStrings
          ([' '].intercalate (((vClass_list.zip m).filter (fun p => p.2)).map (fun p => p.1)))
          ([' '].intercalate (((vClass_list.zip m).filter (fun p => !p.2)).map (fun p => p.1)))).mask
          = vClass_list.map (fun c =>
              decide (c ∈ ((vClass_list.zip m).filter (fun p => p.2)).map (fun p => p.1)) &&
              !decide (c ∈ ((vClass_list.zip m).filter (fun p => !p.2)).map (fun p => p.1))) := by
        simp only [Allowance.ofStrings]
        rw [if_neg (not_or.2 ⟨hne_a_all, hne_a_nil⟩), if_neg hne_a_none,
            if_neg hne_d_all, if_neg hne_d_nil, hsplit_sel, hsplit_unsel]
      rw [hmask]
      apply List.ext_getElem
      · rw [List.length_map, vClass_list_length, h]
      · intro k hk1 hk2
        rw [List.length_map, vClass_list_length] at hk1
        rw [List.getElem_map]
        have hkv : k < vClass_list.length := by rw [vClass_list_length]; exact hk1
        have hkm : k < m.length := by rw [h]; exact hk1
        have hs := mem_selection_iff (fun p => p.2) m h k hkv hkm
        have hu := mem_selection_iff (fun p => !p.2) m h k hkv hkm
        by_cases hb : m[k] = true
        · simp [hs, hu, hb]
        · have hbf : m[k] = false := by
            revert hb
            cases m[k] <;> simp
          simp [hs, hu, hbf]
    · -- all-false mask
      have hm : m = List.replicate 26 false := by
        rw [List.eq_replicate_iff]
        refine ⟨h, fun b hb => ?_⟩
        cases hbv : b
        · rfl
        · exact absurd (List.any_eq_true.2 ⟨b, hb, by simp [hbv]⟩) hany
      rw [hm]
      decide

/-- Witness for the C4 theorem: the round trip at the concrete mixed bus-only mask. -/
theorem allowance_roundtrip_witness :
    maskBus.length = 26 ∧
    (Allowance.ofStrings (Allowance.get_allow_string ⟨maskBus⟩)
      (Allowance.get_disallow_string ⟨maskBus⟩)).mask = maskBus :=
  ⟨by decide, allowance_roundtrip maskBus (by decide)⟩

/-- C5: for a connection whose from-, to- and via-lane references are all resolved and
whose via-lane parallel offsets fail on both sides, shape generation does not raise:
whenever the four terminal lane-edge offsets succeed with nonempty coordinates, it
returns the closed ring through exactly the four terminal cross-section points
(from-lane exit right, to-lane entry right, to-lane entry left, from-lane exit left). -/
theorem connection_shape_fallback {α : Type} (g : Geo α) (fl tl vl : Lane α)
    (hvl : g.parallel_offset vl.alignment (fl.attr.width/2) Side.left = none)
    (hvr : g.parallel_offset vl.alignment (fl.attr.width/2) Side.right = none)
    (fle fre tle tre : α)
    (h1 : g.parallel_offset fl.alignment (fl.attr.width/2) Side.left = some fle)
    (h2 : g.parallel_offset fl.alignment (fl.attr.width/2) Side.right = some fre)
    (h3 : g.parallel_offset tl.alignment (tl.attr.width/2) Side.left = some tle)
    (h4 : g.parallel_offset tl.alignment (tl.attr.width/2) Side.right = some tre)
    (a b cpt d : Point)
    (hc1 : (g.coords fle).getLast? = some a)
    (hc2 : (g.coords tle).head? = some cpt)
    (hc3 : (g.coords fre).head? = some b)
    (hc4 : (g.coords tre).getLast? = some d) :
    Connection.generate_shape g ⟨some fl, some tl, some vl⟩ = Except.ok [b, d, cpt, a, b] := by
  simp only [Connection.generate_shape, h1, h2, h3, h4, hvl, hvr, hc1, hc2, hc3, hc4]
  simp

/-- Witness for the C5 theorem: the concrete connection with a degenerate (single-point)
via-lane centerline under `witnessGeo`. -/
theorem connection_shape_fallback_witness :
    Connection.generate_shape witnessGeo connDegenerateVia =
      Except.ok [((4 : ℚ), (0 : ℚ)), (6, 0), (6, 0), (4, 0), (4, 0)] :=
  connection_shape_fallback witnessGeo laneFrom laneTo laneVia rfl rfl
    [(0, 0), (4, 0)] [(4, 0), (0, 0)] [(6, 0), (10, 0)] [(10, 0), (6, 0)]
    rfl rfl rfl rfl
    ((4 : ℚ), (0 : ℚ)) ((4 : ℚ), (0 : ℚ)) ((6 : ℚ), (0 : ℚ)) ((6 : ℚ), (0 : ℚ))
    rfl rfl rfl rfl

/-- C6 counterexample: constructing a junction whose shape attribute parses to exactly
two coordinate pairs is not an error — the constructor succeeds and leaves the shape
unset (`none`), contradicting the claim that it fails. -/
theorem junction_two_point_shape_cex :
    junctionInit junAttribTwoPoint =
      { id := "gneJ2", type := "priority", incLane_ids := [], intLane_ids := [],
        requests := [], shape := none } := rfl

/-- C6 amended: lane construction fails with a `MalformedGeometry`-class error when the
shape attribute has fewer than 2 coordinate pairs; a junction whose shape attribute
parses to 2 or fewer coordinate pairs is constructed without error, with its shape left
unset rather than raising. -/
theorem malformed_geometry_amended (la : LaneAttrib) (ja : JunctionAttrib)
    (coords : List Point) (hl : la.shape.length < 2) (hj : ja.shape = some coords)
    (hc : coords.length ≤ 2) :
    laneInit la =
      Except.error "MalformedGeometry: LineString requires at least 2 coordinate pairs" ∧
    (junctionInit ja).shape = none := by
  constructor
  · unfold laneInit
    rw [if_pos hl]
  · unfold junctionInit
    simp only [hj]
    rw [if_neg (by omega)]

/-- Witness for the C6 amended theorem at the concrete short-shape attributes. -/
theorem malformed_geometry_witness :
    laneInit laneAttribShortShape =
      Except.error "MalformedGeometry: LineString requires at least 2 coordinate pairs" ∧
    (junctionInit junAttribTwoPoint).shape = none :=
  malformed_geometry_amended laneAttribShortShape junAttribTwoPoint [(0, 0), (1, 1)]
    (by decide) rfl (by decide)

/-- C7 evaluation at the failing input: a two-component multi-line-string with extrude
height 0 and neither face requested yields the concatenated vertices of both components
and zero faces, but only a single line record — the one for the last component
(vertices 3-4) — instead of one line record per component, because the per-outline loop
assigns instead of appending the line list. -/
theorem object3d_multiline_eval :
    Object3D.from_shape mlsTwoParts "o" "m" 0 0 false false =
      Except.ok ⟨"o", "m", [(0, 0, 0), (1, 0, 0), (2, 0, 0), (3, 0, 0)], [], [[3, 4]]⟩ := by
  simp only [Object3D.from_shape, mlsTwoParts]
  norm_num [List.range_succ]

/-- C8: the stop-line location list is the configured offsets (the lane's own rules when
it has at least one, else the parent edge's, empty when the parent is unresolved)
followed by an implicit 0-offset entry exactly when the accrued coverage of the
configured offsets is not a superset of the lane's allowance and 0 is not already
present; in particular a 0-offset entry is present whenever the accrued coverage is not
a superset of the lane's own allowance. -/
theorem stop_line_locations_spec {α : Type} (lane : Lane α) :
    (lane.get_stop_line_locations =
      (laneBaseOffsets lane).map Prod.fst ++
        (if (laneAccrued lane).is_superset_of lane.attr.allows = false ∧
            (0 : ℚ) ∉ (laneBaseOffsets lane).map Prod.fst then [(0 : ℚ)] else [])) ∧
    ((laneAccrued lane).is_superset_of lane.attr.allows = false →
      (0 : ℚ) ∈ lane.get_stop_line_locations) := by
  have hbase : (if lane.attr.stop_offsets.length > 0 then lane.attr.stop_offsets
      else match lane.parentEdge with | some e => e.stop_offsets | none => []) =
      laneBaseOffsets lane := by
    unfold laneBaseOffsets
    by_cases hso : lane.attr.stop_offsets = []
    · simp [hso]
    · simp [hso, List.length_pos.2 hso]
  have hacc : (laneBaseOffsets lane).foldl (fun a so => a.add so.2)
      (Allowance.ofStrings "none".toList []) = laneAccrued lane := rfl
  have hmain : lane.get_stop_line_locations =
      (laneBaseOffsets lane).map Prod.fst ++
        (if (laneAccrued lane).is_superset_of lane.attr.allows = false ∧
            (0 : ℚ) ∉ (laneBaseOffsets lane).map Prod.fst then [(0 : ℚ)] else []) := by
    simp only [Lane.get_stop_line_locations, hbase, foldl_pair_spec, List.nil_append, hacc]
    by_cases hsup : (laneAccrued lane).is_superset_of lane.attr.allows = true
    · simp [hsup]
    · have hsupF : (laneAccrued lane).is_superset_of lane.attr.allows = false := by
        revert hsup
        cases (laneAccrued lane).is_superset_of lane.attr.allows <;> simp
      by_cases hz : (0 : ℚ) ∈ (laneBaseOffsets lane).map Prod.fst
      · simp [hsupF, hz]
      · simp [hsupF, hz]
  refine ⟨hmain, fun hsup => ?_⟩
  rw [hmain]
  by_cases hz : (0 : ℚ) ∈ (laneBaseOffsets lane).map Prod.fst
  · exact List.mem_append.2 (Or.inl hz)
  · refine List.mem_append.2 (Or.inr ?_)
    rw [if_pos ⟨hsup, hz⟩]
    simp

/-- Witness for the C8 theorem: a lane with one bus-only stop offset and an all-classes
allowance gets the configured location plus the implicit 0-offset entry. -/
theorem stop_line_locations_spec_witness :
    laneWithOffsets.get_stop_line_locations = [5, 0] ∧
    (0 : ℚ) ∈ laneWithOffsets.get_stop_line_locations := by
  refine ⟨?_, (stop_line_locations_spec laneWithOffsets).2 (by decide)⟩
  rw [(stop_line_locations_spec laneWithOffsets).1]
  decide

/-- C9: constructing an allowance with an empty allow string is identical to the
sentinel "all" for every disallow string, and a lane whose source record omits both
permission attributes allows every vehicle class. -/
theorem allowance_empty_is_all (D : List Char) (attrib : LaneAttrib)
    (lane : Lane (List Point)) (hA : attrib.allow = none) (hD : attrib.disallow = none)
    (hres : laneInit attrib = Except.ok lane) :
    (Allowance.ofStrings [] D).mask = (Allowance.ofStrings "all".toList D).mask ∧
    lane.attr.allows.mask.all id = true := by
  constructor
  · simp [Allowance.ofStrings]
  · unfold laneInit at hres
    by_cases hs : attrib.shape.length < 2
    · rw [if_pos hs] at hres
      exact absurd hres (by simp)
    · rw [if_neg hs] at hres
      injection hres with hlane
      rw [← hlane]
      simp [hA, hD]
      decide

/-- Witness for the C9 theorem: disallow string "bus" and the concrete attribute record
omitting both permission attributes. -/
theorem allowance_empty_is_all_witness :
    (Allowance.ofStrings [] "bus".toList).mask =
      (Allowance.ofStrings "all".toList "bus".toList).mask ∧
    laneNoPerm.attr.allows.mask.all id = true :=
  allowance_empty_is_all "bus".toList laneAttribNoPerms laneNoPerm rfl rfl rfl

/-- C10: lane lookup by id splits the id on its last underscore; when the parsed edge id
is absent from the network the lookup returns `None`, while a known edge containing no
lane with the parsed index raises an `IndexError`. -/
theorem net_get_lane_spec (net : Net) (lane_id : String) (n : Int)
    (hn : parseInt? ((lane_id.toList.splitOn '_').getLastD []) = some n) :
    (net.getEdge (String.mk (['_'].intercalate (lane_id.toList.splitOn '_').dropLast)) =
        none → net.get_lane lane_id = Except.ok none) ∧
    (∀ e, net.getEdge (String.mk (['_'].intercalate (lane_id.toList.splitOn '_').dropLast)) =
        some e → (∀ l ∈ e.lanes, l.index ≠ n) →
        net.get_lane lane_id =
          Except.error "IndexError: Edge contains no Lane with given index.") := by
  simp only [Net.get_lane]
  rw [hn]
  constructor
  · intro he
    simp only [he]
  · intro e he hl
    have hfind : e.lanes.find? (fun l => decide (l.index = n)) = none :=
      List.find?_eq_none.2 (fun l hlm => by simp [hl l hlm])
    simp only [he, Edge.get_lane, hfind]
    rfl

/-- Witness for the C10 theorem: on `netA`, a missing lane index on the known edge
raises, and an unknown edge id is tolerated. -/
theorem net_get_lane_spec_witness :
    netA.get_lane "gneE0_5" =
      Except.error "IndexError: Edge contains no Lane with given index." ∧
    netA.get_lane "missing_0" = Except.ok none :=
  ⟨(net_get_lane_spec netA "gneE0_5" 5 (by decide)).2 edgeA rfl (by decide),
   (net_get_lane_spec netA "missing_0" 0 (by decide)).1 rfl⟩

/-- C1 counterexample: for the concrete one-lane edge (index 0, lane count 1) whose lane
allows all vehicle classes, under EUR style with stop lines disabled, the marking
synthesis returns two markings (the centerline marking and the solid outer right-edge
marking), not exactly one. -/
theorem scenario_a_cex :
    (laneA.guess_lane_markings witnessGeo cfgEUR).map (fun ms => ms.map (fun mk => mk.purpose)) =
      Except.ok ["center", "outer"] ∧
    ¬ (laneA.guess_lane_markings witnessGeo cfgEUR).map (fun ms => ms.length) = Except.ok 1 := by
  constructor
  · rfl
  · have h2 : (laneA.guess_lane_markings witnessGeo cfgEUR).map (fun ms => ms.length) =
        Except.ok 2 := rfl
    rw [h2]
    simp

/-- C1 amended: for a lane allowing all vehicle classes that is the only lane of its
edge (index 0, lane count 1), under EUR style with stop lines disabled or not required,
the marking synthesis returns exactly two markings: the solid white centerline marking
whose alignment is the centerline offset left by the full half-width, and a solid white
outer marking on the right edge; no lane-change markings. -/
theorem scenario_a_amended {α : Type} (g : Geo α) (cfg : Config) (lane : Lane α) (e : Edge)
    (hp : lane.parentEdge = some e)
    (hf1 : e.function ≠ "internal") (hf2 : e.function ≠ "crossing")
    (hlanes : e.lanes = [lane.attr]) (hidx : lane.attr.index = 0)
    (hallow : lane.attr.allows = Allowance.ofStrings "all".toList [])
    (hstyle : cfg.style = "EUR")
    (hstop : cfg.plot_stop_lines = false ∨ lane.requires_stop_line = Except.ok false)
    (la ra : α)
    (hla : g.parallel_offset lane.alignment (lane.attr.width/2) Side.left = some la)
    (hra : g.parallel_offset lane.alignment (lane.attr.width/2) Side.right = some ra) :
    lane.guess_lane_markings g cfg =
      Except.ok [⟨"center", la, 1/10 * cfg.stripe_width_scale, "w", (100, 0)⟩,
                 ⟨"outer", ra, 1/10 * cfg.stripe_width_scale, "w", (100, 0)⟩] := by
  have hship : lane.attr.allows.eqString "ship".toList = false := by rw [hallow]; decide
  have hrail : lane.attr.allows.eqString "rail".toList = false := by rw [hallow]; decide
  have hpedE : lane.attr.allows.eqString "pedestrian".toList = false := by rw [hallow]; decide
  have hpedA : lane.attr.allows.allows "pedestrian".toList = true := by rw [hallow]; decide
  have hallA : lane.attr.allows.allows "all".toList = true := by rw [hallow]; decide
  have hcount : (e.lane_count : Int) - 1 = 0 := by
    simp [Edge.lane_count, hlanes]
  rcases hstop with hstop | hstop
  · simp only [Lane.guess_lane_markings, hp, hship, hrail, hstyle, hla, hidx, hpedA,
      hallA, hstop, hpedE]
    simp [hf1, hf2, hra, hcount]
  · simp only [Lane.guess_lane_markings, hp, hship, hrail, hstyle, hla, hidx, hpedA,
      hallA, hstop, hpedE]
    simp [hf1, hf2, hra, hcount]

/-- Witness for the C1 amended theorem at the concrete one-lane edge under `witnessGeo`. -/
theorem scenario_a_amended_witness :
    laneA.guess_lane_markings witnessGeo cfgEUR =
      Except.ok
        [⟨"center", [(0, 0), (10, 0)], 1/10 * cfgEUR.stripe_width_scale, "w", (100, 0)⟩,
         ⟨"outer", [(10, 0), (0, 0)], 1/10 * cfgEUR.stripe_width_scale, "w", (100, 0)⟩] :=
  scenario_a_amended witnessGeo cfgEUR laneA edgeA rfl (by decide) (by decide) rfl rfl rfl
    rfl (Or.inl rfl) [(0, 0), (10, 0)] [(10, 0), (0, 0)] rfl rfl

end SumoNetVis
